import Mathlib

/-!
Verification of the `xwmt` water-mass-transformation package.

The development shallowly embeds the two source modules:

* `xwmt/compute.py` — the vertical convergence operator `hlamdot_from_Jlam`
  and its wrapper `calc_hlamdot_tendency`;
* `xwmt/wmt.py` — the `WaterMassTransformations` class: process taxonomy,
  `datadict`, `get_density`, `rho_tend`, `calc_hlamdot_and_lambda`,
  `transform_hlamdot`, the grouping helpers and `map_transformations` /
  `isosurface_mean`.

Python float arrays are modelled with an IEEE-style value type `FloatV`
(rationals extended by the two infinities and NaN); a vertical column of
values is a function `Nat → FloatV`.  Fallible Python code (raising) is
modelled with `Except String`; implicit `return None` is `Option`.
Functions that `wmt.py` imports from `xwmt.compute` but that are absent
from the sources are modelled from the specification and marked as such.
-/

namespace Xwmt

/-- IEEE-style scalar used to model Python float arrays: a rational,
one of the two infinities, or NaN. -/
inductive FloatV where
  | nan : FloatV
  | pinf : FloatV
  | ninf : FloatV
  | fin : ℚ → FloatV
  deriving DecidableEq

namespace FloatV

/-- IEEE negation. -/
def neg : FloatV → FloatV
  | nan => nan
  | pinf => ninf
  | ninf => pinf
  | fin a => fin (-a)

/-- IEEE addition. -/
def add : FloatV → FloatV → FloatV
  | nan, _ => nan
  | _, nan => nan
  | pinf, ninf => nan
  | ninf, pinf => nan
  | pinf, _ => pinf
  | _, pinf => pinf
  | ninf, _ => ninf
  | _, ninf => ninf
  | fin a, fin b => fin (a + b)

/-- IEEE subtraction. -/
def sub : FloatV → FloatV → FloatV
  | nan, _ => nan
  | _, nan => nan
  | pinf, pinf => nan
  | pinf, _ => pinf
  | ninf, ninf => nan
  | ninf, _ => ninf
  | fin _, pinf => ninf
  | fin _, ninf => pinf
  | fin a, fin b => fin (a - b)

/-- IEEE multiplication (`0 * inf = NaN`). -/
def mul : FloatV → FloatV → FloatV
  | nan, _ => nan
  | _, nan => nan
  | pinf, pinf => pinf
  | pinf, ninf => ninf
  | ninf, pinf => ninf
  | ninf, ninf => pinf
  | pinf, fin b => if b = 0 then nan else if 0 < b then pinf else ninf
  | ninf, fin b => if b = 0 then nan else if 0 < b then ninf else pinf
  | fin a, pinf => if a = 0 then nan else if 0 < a then pinf else ninf
  | fin a, ninf => if a = 0 then nan else if 0 < a then ninf else pinf
  | fin a, fin b => fin (a * b)

/-- IEEE division (`x/0 = ±inf` for `x ≠ 0`, `0/0 = NaN`).  The model
rational zero is unsigned, as numpy's default positive zero. -/
def div : FloatV → FloatV → FloatV
  | nan, _ => nan
  | _, nan => nan
  | pinf, pinf => nan
  | pinf, ninf => nan
  | ninf, pinf => nan
  | ninf, ninf => nan
  | pinf, fin b => if 0 ≤ b then pinf else ninf
  | ninf, fin b => if 0 ≤ b then ninf else pinf
  | fin _, pinf => fin 0
  | fin _, ninf => fin 0
  | fin a, fin b =>
      if b = 0 then (if a = 0 then nan else if 0 < a then pinf else ninf)
      else fin (a / b)

/-- Model of `xarray.DataArray.fillna(0.)` at one cell. -/
def fillna (v : FloatV) : FloatV :=
  match v with
  | nan => fin 0
  | v => v

/-- A value is finite when it is neither NaN nor infinite. -/
def isFinite : FloatV → Prop
  | fin _ => True
  | _ => False

end FloatV

/-- A vertical column of values (cell centers or cell interfaces,
indexed from the surface downward). -/
def Column : Type := Nat → FloatV

/-- Pointwise column negation (`-da`). -/
def colNeg (a : Column) : Column := fun k => FloatV.neg (a k)

/-- Pointwise column addition (`da1 + da2`). -/
def colAdd (a b : Column) : Column := fun k => FloatV.add (a k) (b k)

/-- Column times a rational constant (`da * c`). -/
def colMulC (a : Column) (c : ℚ) : Column := fun k => FloatV.mul (a k) (FloatV.fin c)

/-- Column divided by a rational constant (`da / c`). -/
def colDivC (a : Column) (c : ℚ) : Column := fun k => FloatV.div (a k) (FloatV.fin c)

/-- Pointwise column multiplication (`da1 * da2`). -/
def colMul (a b : Column) : Column := fun k => FloatV.mul (a k) (b k)

/-- The model of the `xgcm`-style grid object consumed by the package
(`diff`, `interp`, `transform`, `get_metric` capabilities, per the spec's
external-interface section).  `Z_metrics` is `some h` exactly when the
Python object has a `Z_metrics` attribute, `h` being its `"center"`
thickness field; `metric` is what `grid.get_metric(·, "Z")` returns. -/
structure XGrid where
  Z_metrics : Option Column := none
  metric : Column
  interp : Column → Column
  transform : Column → List ℚ → Column → Column

/-- `grid.diff(J, dim)` along the vertical axis: interface field to
center field, `(diff J) k = J (k+1) - J k`. -/
def gridDiff (J : Column) : Column := fun k => FloatV.sub (J (k + 1)) (J k)

/-- `h.where(h != 0.)`: keep nonzero entries, turn zeros into NaN. -/
def whereNeZero (v : FloatV) : FloatV :=
  if v = FloatV.fin 0 then FloatV.nan else v

/-- `hlamdot_from_Jlam(grid, Jlam, dim)` from `xwmt/compute.py`:
convergence of an interfacial flux, with zero-thickness masking when the
grid carries a `Z_metrics` attribute. -/
def hlamdot_from_Jlam (grid : XGrid) (Jlam : Column) (_dim : String) : Column :=
  let dJlam : Column := fun k => FloatV.neg (gridDiff Jlam k)
  let h : Column :=
    match grid.Z_metrics with
    | some hc => fun k => whereNeZero (hc k)
    | none => grid.metric
  let lamdot : Column := fun k => FloatV.div (dJlam k) (h k)
  fun k => FloatV.mul (FloatV.fillna (h k)) (FloatV.fillna (lamdot k))

/-- `datadict["scalar"]` entry. -/
structure ScalarEntry where
  array : Column

/-- `datadict["tendency"]` entry. -/
structure TendencyEntry where
  array : Column
  extensive : Bool
  boundary : Bool

/-- `datadict["boundary"]` entry (the mass-flux companion). -/
structure BoundaryEntry where
  flux : Column
  mass : Bool
  scalar_in_mass : Column

/-- A tendency record (a Python dict).  Each field is `some` exactly when
the corresponding key is present in the dict. -/
structure DataDict where
  scalar : Option ScalarEntry := none
  tendency : Option TendencyEntry := none
  boundary : Option BoundaryEntry := none
  layer_integrated_tendency : Option Column := none
  interfacial_flux : Option Column := none

/-- `calc_hlamdot_tendency(grid, datadict)` from `xwmt/compute.py`:
return a precomputed layer-integrated tendency verbatim, else apply the
convergence operator to an interfacial flux, else fall through
(Python's implicit `return None`). -/
def calc_hlamdot_tendency (grid : XGrid) (d : DataDict) : Option Column :=
  match d.layer_integrated_tendency with
  | some t => some t
  | none =>
      match d.interfacial_flux with
      | some J => some (hlamdot_from_Jlam grid J "Z")
      | none => none

/-! ## The `WaterMassTransformations` class (`xwmt/wmt.py`) -/

/-- An `xarray.Dataset`: named variables, `none` for an absent name. -/
def Dataset : Type := String → Option Column

/-- Class attribute `terms_dict`: tracer component to scalar variable. -/
def terms_dict (tendency : String) : Option String :=
  if tendency = "heat" then some "thetao"
  else if tendency = "salt" then some "so"
  else none

/-- Class attribute `processes_heat_dict` (`dict.get` semantics). -/
def processes_heat_dict (term : String) : Option String :=
  if term = "Eulerian_tendency" then some "opottemptend"
  else if term = "horizontal_advection" then some "T_advection_xy"
  else if term = "vertical_advection" then some "Th_tendency_vert_remap"
  else if term = "boundary_forcing" then some "boundary_forcing_heat_tendency"
  else if term = "vertical_diffusion" then some "opottempdiff"
  else if term = "neutral_diffusion" then some "opottemppmdiff"
  else if term = "frazil_ice" then some "frazil_heat_tendency"
  else if term = "geothermal" then some "internal_heat_heat_tendency"
  else none

/-- Class attribute `processes_salt_dict`.  The keys `frazil_ice` and
`geothermal` are present in the Python dict but map to `None`, which
`dict.get` returns exactly as for a missing key. -/
def processes_salt_dict (term : String) : Option String :=
  if term = "Eulerian_tendency" then some "osalttend"
  else if term = "horizontal_advection" then some "S_advection_xy"
  else if term = "vertical_advection" then some "Sh_tendency_vert_remap"
  else if term = "boundary_forcing" then some "boundary_forcing_salt_tendency"
  else if term = "vertical_diffusion" then some "osaltdiff"
  else if term = "neutral_diffusion" then some "osaltpmdiff"
  else none

/-- Class attribute `lambdas_dict`. -/
def lambdas_dict (k : String) : List String :=
  if k = "heat" then ["theta"]
  else if k = "salt" then ["salt"]
  else if k = "density" then ["sigma0", "sigma1", "sigma2", "sigma3", "sigma4"]
  else []

/-- `self.lambdas("density")`, the supported density lambda names. -/
def lambdas_density : List String := lambdas_dict "density"

/-- The key iteration order of the process dictionaries. -/
def processes_keys : List String :=
  ["Eulerian_tendency", "horizontal_advection", "vertical_advection",
   "boundary_forcing", "vertical_diffusion", "neutral_diffusion",
   "frazil_ice", "geothermal"]

/-- The seawater-library functions consumed from the external `gsw`
module (an external collaborator, supplied as a parameter). -/
structure Gsw where
  p_from_z : Column → Column → Column
  SA_from_SP : Column → Column → Column → Column → Column
  CT_from_t : Column → Column → Column → Column
  alpha : Column → Column → Column → Column
  beta : Column → Column → Column → Column
  sigma0 : Column → Column → Column
  sigma1 : Column → Column → Column
  sigma2 : Column → Column → Column
  sigma3 : Column → Column → Column
  sigma4 : Column → Column → Column

/-- The state of a `WaterMassTransformations` object.  The coefficient
fields `alpha`, `beta` and the cached `p`, `sa`, `ct` are `some` exactly
when the attribute is set on the Python object (`vars(self)`); `xgrid`
stands for the grid built by `get_xgcm_grid_vertical`, which is imported
from `xwmt.compute` but absent from the sources (modelled from the spec
as an externally supplied grid capability). -/
structure WMT where
  ds : Dataset
  xgrid : XGrid
  cp : ℚ := 3992
  rho_ref : ℚ := 1035
  alpha : Option Column := none
  beta : Option Column := none
  teos10 : Bool := true
  p : Option Column := none
  sa : Option Column := none
  ct : Option Column := none

/-- `self.ds[name]`: raises `KeyError` when the variable is absent. -/
def getVar (ds : Dataset) (name : String) : Except String Column :=
  match ds name with
  | some a => Except.ok a
  | none => Except.error ("KeyError: " ++ name)

/-- `self.ds[name]` where `name` is itself an optional string. -/
def getVarO (ds : Dataset) (name : Option String) : Except String Column :=
  match name with
  | some n => getVar ds n
  | none => Except.error "KeyError: None"

/-- Helper method `process(tendency, term)`: `none` models the Python
`warn`-and-`return None` path for an unknown tendency, otherwise the
pair `(tendcode, termcode)`. -/
def process (tendency term : String) : Option (Option String × Option String) :=
  if tendency = "heat" then some (terms_dict tendency, processes_heat_dict term)
  else if tendency = "salt" then some (terms_dict tendency, processes_salt_dict term)
  else none

/-- Modelled from the spec: `expand_surface_to_3d` is imported from
`xwmt.compute` but absent from the sources.  Per the spec it broadcasts
the scalar surface flux across the vertical dimension as a
single-interface placement, all other levels zero. -/
def expand_surface_to_3d (field : Column) (_lev_outer : Column) : Column :=
  fun k => if k = 0 then field 0 else FloatV.fin 0

/-- `xr.zeros_like(da)`. -/
def zeros_like (_a : Column) : Column := fun _ => FloatV.fin 0

/-- Method `datadict(tendency, term)`.  Evaluation order and the raising
behaviour (`KeyError` on missing auxiliary variables, `ValueError` on an
unsupported boundary termcode, `TypeError` when unpacking the `None`
returned by `process` for an unknown tendency) follow the source. -/
def datadict (w : WMT) (tendency term : String) : Except String (Option DataDict) :=
  match process tendency term with
  | none => Except.error "TypeError: cannot unpack non-sequence NoneType"
  | some (tendcode, termcode?) =>
    match termcode? with
    | none => Except.ok none
    | some termcode =>
      match w.ds termcode with
      | none => Except.ok none
      | some base =>
        let tend_arr := if tendency = "salt" then colMulC base 1000 else base
        if term = "boundary_forcing" then
          if termcode = "boundary_forcing_heat_tendency" then
            match w.ds "wfo" with
            | none => Except.error "KeyError: wfo"
            | some wfo =>
              match w.ds "lev_outer" with
              | none => Except.error "KeyError: lev_outer"
              | some lev =>
                let flux := colMulC (expand_surface_to_3d wfo lev) w.cp
                match w.ds "tos" with
                | none => Except.error "KeyError: tos"
                | some tos =>
                  let sim := expand_surface_to_3d tos lev
                  match getVarO w.ds tendcode with
                  | Except.error e => Except.error e
                  | Except.ok scal =>
                    Except.ok (some
                      { scalar := some { array := scal },
                        tendency := some { array := tend_arr, extensive := true, boundary := true },
                        boundary := some { flux := flux, mass := true, scalar_in_mass := sim } })
          else if termcode = "boundary_forcing_salt_tendency" then
            match w.ds "wfo" with
            | none => Except.error "KeyError: wfo"
            | some wfo =>
              match w.ds "lev_outer" with
              | none => Except.error "KeyError: lev_outer"
              | some lev =>
                let flux := expand_surface_to_3d wfo lev
                match w.ds "sos" with
                | none => Except.error "KeyError: sos"
                | some sos =>
                  let sim := expand_surface_to_3d (zeros_like sos) lev
                  match getVarO w.ds tendcode with
                  | Except.error e => Except.error e
                  | Except.ok scal =>
                    Except.ok (some
                      { scalar := some { array := scal },
                        tendency := some { array := tend_arr, extensive := true, boundary := true },
                        boundary := some { flux := flux, mass := true, scalar_in_mass := sim } })
          else Except.error ("ValueError: termcode " ++ termcode ++ " not yet supported.")
        else
          match getVarO w.ds tendcode with
          | Except.error e => Except.error e
          | Except.ok scal =>
            Except.ok (some
              { scalar := some { array := scal },
                tendency := some { array := tend_arr, extensive := true, boundary := false } })

/-- Attribute access `self.x` for a cached optional field. -/
def attrGet (x : Option Column) (name : String) : Except String Column :=
  match x with
  | some a => Except.ok a
  | none => Except.error ("AttributeError: " ++ name)

/-- First block of `get_density`: compute pressure `p` from depth and
latitude when alpha, beta or TEOS-10 conversions will need it. -/
def gd_step_p (gsw : Gsw) (w : WMT) : Except String WMT :=
  if (w.alpha.isNone || w.beta.isNone || w.teos10) && w.p.isNone then
    match w.ds "lev" with
    | none => Except.error "KeyError: lev"
    | some lev =>
      match w.ds "lat" with
      | none => Except.error "KeyError: lat"
      | some lat => Except.ok { w with p := some (gsw.p_from_z (colNeg lev) lat) }
  else Except.ok w

/-- Second block of `get_density`: absolute salinity under TEOS-10. -/
def gd_step_sa (gsw : Gsw) (w : WMT) : Except String WMT :=
  if w.teos10 && w.sa.isNone then
    match w.ds "so" with
    | none => Except.error "KeyError: so"
    | some so =>
      match attrGet w.p "p" with
      | Except.error e => Except.error e
      | Except.ok p =>
        match w.ds "lon" with
        | none => Except.error "KeyError: lon"
        | some lon =>
          match w.ds "lat" with
          | none => Except.error "KeyError: lat"
          | some lat => Except.ok { w with sa := some (gsw.SA_from_SP so p lon lat) }
  else Except.ok w

/-- Third block of `get_density`: conservative temperature under TEOS-10. -/
def gd_step_ct (gsw : Gsw) (w : WMT) : Except String WMT :=
  if w.teos10 && w.ct.isNone then
    match attrGet w.sa "sa" with
    | Except.error e => Except.error e
    | Except.ok sa =>
      match w.ds "thetao" with
      | none => Except.error "KeyError: thetao"
      | some thetao =>
        match attrGet w.p "p" with
        | Except.error e => Except.error e
        | Except.ok p => Except.ok { w with ct := some (gsw.CT_from_t sa thetao p) }
  else Except.ok w

/-- Fourth block of `get_density`: pass-through of practical salinity and
potential temperature when TEOS-10 is disabled. -/
def gd_step_passthrough (w : WMT) : Except String WMT :=
  if !w.teos10 && (w.sa.isNone || w.ct.isNone) then
    match w.ds "so" with
    | none => Except.error "KeyError: so"
    | some so =>
      match w.ds "thetao" with
      | none => Except.error "KeyError: thetao"
      | some thetao => Except.ok { w with sa := some so, ct := some thetao }
  else Except.ok w

/-- Fifth block of `get_density`: the thermal expansion coefficient,
looked up from the dataset when present, else computed and cached. -/
def gd_step_alpha (gsw : Gsw) (w : WMT) : Except String WMT :=
  if w.alpha.isNone then
    match w.ds "alpha" with
    | some a => Except.ok { w with alpha := some a }
    | none =>
      match attrGet w.sa "sa" with
      | Except.error e => Except.error e
      | Except.ok sa =>
        match attrGet w.ct "ct" with
        | Except.error e => Except.error e
        | Except.ok ct =>
          match attrGet w.p "p" with
          | Except.error e => Except.error e
          | Except.ok p => Except.ok { w with alpha := some (gsw.alpha sa ct p) }
  else Except.ok w

/-- Sixth block of `get_density`: the haline contraction coefficient. -/
def gd_step_beta (gsw : Gsw) (w : WMT) : Except String WMT :=
  if w.beta.isNone then
    match w.ds "beta" with
    | some b => Except.ok { w with beta := some b }
    | none =>
      match attrGet w.sa "sa" with
      | Except.error e => Except.error e
      | Except.ok sa =>
        match attrGet w.ct "ct" with
        | Except.error e => Except.error e
        | Except.ok ct =>
          match attrGet w.p "p" with
          | Except.error e => Except.error e
          | Except.ok p => Except.ok { w with beta := some (gsw.beta sa ct p) }
  else Except.ok w

/-- The preliminary blocks of `get_density` in source order. -/
def gd_prelims (gsw : Gsw) (w : WMT) : Except String WMT :=
  match gd_step_p gsw w with
  | Except.error e => Except.error e
  | Except.ok w1 =>
    match gd_step_sa gsw w1 with
    | Except.error e => Except.error e
    | Except.ok w2 =>
      match gd_step_ct gsw w2 with
      | Except.error e => Except.error e
      | Except.ok w3 =>
        match gd_step_passthrough w3 with
        | Except.error e => Except.error e
        | Except.ok w4 =>
          match gd_step_alpha gsw w4 with
          | Except.error e => Except.error e
          | Except.ok w5 => gd_step_beta gsw w5

/-- The sigma dispatch of `get_density` for a label that is not a field
of the dataset: the supported labels `sigma0`..`sigma4` compute a
potential density, every other label returns `None` for the density. -/
def gd_density (gsw : Gsw) (w : WMT) (density_str : Option String)
    (alpha beta : Column) : Except String (WMT × Column × Column × Option Column) :=
  let inDs : Bool := match density_str with
    | some s => (w.ds s).isSome
    | none => false
  if inDs then
    match getVarO w.ds density_str with
    | Except.error e => Except.error e
    | Except.ok d => Except.ok (w, alpha, beta, some d)
  else
    match density_str with
    | some "sigma0" =>
      match attrGet w.sa "sa" with
      | Except.error e => Except.error e
      | Except.ok sa =>
        match attrGet w.ct "ct" with
        | Except.error e => Except.error e
        | Except.ok ct => Except.ok (w, alpha, beta, some (gsw.sigma0 sa ct))
    | some "sigma1" =>
      match attrGet w.sa "sa" with
      | Except.error e => Except.error e
      | Except.ok sa =>
        match attrGet w.ct "ct" with
        | Except.error e => Except.error e
        | Except.ok ct => Except.ok (w, alpha, beta, some (gsw.sigma1 sa ct))
    | some "sigma2" =>
      match attrGet w.sa "sa" with
      | Except.error e => Except.error e
      | Except.ok sa =>
        match attrGet w.ct "ct" with
        | Except.error e => Except.error e
        | Except.ok ct => Except.ok (w, alpha, beta, some (gsw.sigma2 sa ct))
    | some "sigma3" =>
      match attrGet w.sa "sa" with
      | Except.error e => Except.error e
      | Except.ok sa =>
        match attrGet w.ct "ct" with
        | Except.error e => Except.error e
        | Except.ok ct => Except.ok (w, alpha, beta, some (gsw.sigma3 sa ct))
    | some "sigma4" =>
      match attrGet w.sa "sa" with
      | Except.error e => Except.error e
      | Except.ok sa =>
        match attrGet w.ct "ct" with
        | Except.error e => Except.error e
        | Except.ok ct => Except.ok (w, alpha, beta, some (gsw.sigma4 sa ct))
    | _ => Except.ok (w, alpha, beta, none)

/-- Method `get_density(density_str)`.  Returns the updated object state
together with `(alpha, beta, density)`; the density slot is `none` for a
label that is neither a dataset field nor one of `sigma0`..`sigma4`
(including the default `density_str=None` call used by `rho_tend`). -/
def get_density (gsw : Gsw) (w : WMT) (density_str : Option String) :
    Except String (WMT × Column × Column × Option Column) :=
  match gd_prelims gsw w with
  | Except.error e => Except.error e
  | Except.ok w1 =>
    match attrGet w1.alpha "alpha" with
    | Except.error e => Except.error e
    | Except.ok alpha =>
      match attrGet w1.beta "beta" with
      | Except.error e => Except.error e
      | Except.ok beta => gd_density gsw w1 density_str alpha beta

/-- Method `rho_tend(term)`: density tendencies along the heat and salt
paths.  When either tracer applies, the source multiplies
`-(alpha/cp)` (resp. `beta`) with the value of `calc_hlamdot_tendency`,
which is a Python `TypeError` when that value is `None`. -/
def rho_tend (gsw : Gsw) (w : WMT) (term : String) :
    Except String (WMT × Option Column × Option Column) :=
  match
    (match w.alpha, w.beta with
     | some a, some b => Except.ok (w, a, b)
     | _, _ =>
       match get_density gsw w none with
       | Except.error e => Except.error e
       | Except.ok (w1, a, b, _) => Except.ok (w1, a, b)) with
  | Except.error e => Except.error e
  | Except.ok (w1, alpha, beta) =>
    match datadict w1 "heat" term with
    | Except.error e => Except.error e
    | Except.ok dd? =>
      match
        (match dd? with
         | none => Except.ok none
         | some dd =>
           match calc_hlamdot_tendency w1.xgrid dd with
           | none => Except.error "TypeError: unsupported operand type NoneType"
           | some heat_tend =>
             Except.ok (some (colMul (colNeg (colDivC alpha w1.cp)) heat_tend))) with
      | Except.error e => Except.error e
      | Except.ok rho_tend_heat =>
        match datadict w1 "salt" term with
        | Except.error e => Except.error e
        | Except.ok dd2? =>
          match
            (match dd2? with
             | none => Except.ok none
             | some dd =>
               match calc_hlamdot_tendency w1.xgrid dd with
               | none => Except.error "TypeError: unsupported operand type NoneType"
               | some salt_tend => Except.ok (some (colMul beta salt_tend))) with
          | Except.error e => Except.error e
          | Except.ok rho_tend_salt => Except.ok (w1, rho_tend_heat, rho_tend_salt)

/-- The `hlamdot` value of `calc_hlamdot_and_lambda`: a single array for
the `theta` and `salt` lambdas, a dict keyed by tracer component for a
density lambda. -/
inductive HlamdotVal where
  | single : Column → HlamdotVal
  | byTracer : Option Column → Option Column → HlamdotVal

/-- Method `calc_hlamdot_and_lambda(lambda_name, term)`.  For the `theta`
and `salt` branches the source assigns `hlamdot` and `lam` only inside
`if datadict is not None`, so a `None` datadict reaches
`return hlamdot, lam` with `hlamdot` unbound (an `UnboundLocalError`);
when the datadict exists, `calc_hlamdot_tendency` returns `None` on its
record and the division by `rho_ref` is a `TypeError`. -/
def calc_hlamdot_and_lambda (gsw : Gsw) (w : WMT) (lambda_name term : String) :
    Except String (WMT × HlamdotVal × Option Column) :=
  if lambda_name = "theta" then
    match datadict w "heat" term with
    | Except.error e => Except.error e
    | Except.ok none =>
      Except.error "UnboundLocalError: local variable hlamdot referenced before assignment"
    | Except.ok (some dd) =>
      match calc_hlamdot_tendency w.xgrid dd with
      | none => Except.error "TypeError: unsupported operand type NoneType"
      | some t =>
        let hlamdot := colDivC t (w.rho_ref * w.cp)
        match dd.scalar with
        | none => Except.error "KeyError: scalar"
        | some sc => Except.ok (w, HlamdotVal.single hlamdot, some sc.array)
  else if lambda_name = "salt" then
    match datadict w "salt" term with
    | Except.error e => Except.error e
    | Except.ok none =>
      Except.error "UnboundLocalError: local variable hlamdot referenced before assignment"
    | Except.ok (some dd) =>
      match calc_hlamdot_tendency w.xgrid dd with
      | none => Except.error "TypeError: unsupported operand type NoneType"
      | some t =>
        let hlamdot := colDivC t w.rho_ref
        match dd.scalar with
        | none => Except.error "KeyError: scalar"
        | some sc => Except.ok (w, HlamdotVal.single hlamdot, some sc.array)
  else if lambdas_density.contains lambda_name then
    match rho_tend gsw w term with
    | Except.error e => Except.error e
    | Except.ok (w1, rho_heat, rho_salt) =>
      match get_density gsw w1 (some lambda_name) with
      | Except.error e => Except.error e
      | Except.ok (w2, _, _, lam) =>
        Except.ok (w2, HlamdotVal.byTracer rho_heat rho_salt, lam)
  else Except.error ("ValueError: " ++ lambda_name ++ " is not a supported lambda.")

/-! ## Result containers and the aggregation helpers -/

/-- An `xarray.Dataset` used as a result container: an association list
of named transformation fields, assignment replacing in place. -/
def DsMap : Type := List (String × Column)

/-- Key membership/lookup in a result container (`term in ds` / `ds[term]`). -/
def lookupDs : DsMap → String → Option Column
  | [], _ => none
  | p :: rest, k => if p.1 = k then some p.2 else lookupDs rest k

/-- Assignment `ds[k] = v`: replace the existing entry in place, else
append a new one. -/
def setKey : DsMap → String → Column → DsMap
  | [], k, v => [(k, v)]
  | p :: rest, k, v => if p.1 = k then (k, v) :: rest else p :: setKey rest k v

/-- The list `das` gathered by `_sum_terms`: the values of the term keys
that are present (a `None` key is never present). -/
def stepDas (m : DsMap) (terms : List (Option String)) : List Column :=
  terms.filterMap (fun t? => t?.bind (lookupDs m))

/-- The all-zero column, the start value of Python's `sum`. -/
def colZero : Column := fun _ => FloatV.fin 0

/-- Python `sum(das)` over data arrays. -/
def sumDas (l : List Column) : Column := l.foldl colAdd colZero

/-- Helper method `_sum_terms(ds, newterm, terms)`: write the sum of the
present addends, or leave the container untouched when none is present. -/
def _sum_terms (m : DsMap) (newterm : String) (terms : List (Option String)) : DsMap :=
  let das := stepDas m terms
  if das.isEmpty then m else setKey m newterm (sumDas das)

/-- One grouping step: a category name with its addend keys. -/
def runStep (m : DsMap) (st : String × List (Option String)) : DsMap :=
  _sum_terms m st.1 st.2

/-- First `_sum_terms` call of `_group_processes` for the heat component:
external forcing from the taxonomy keys. -/
def gstep1 : String × List (Option String) :=
  ("external_forcing_heat",
    [processes_heat_dict "boundary_forcing", processes_heat_dict "frazil_ice",
     processes_heat_dict "geothermal"])

/-- Heat diffusion grouping step. -/
def gstep2 : String × List (Option String) :=
  ("diffusion_heat",
    [processes_heat_dict "vertical_diffusion", processes_heat_dict "neutral_diffusion"])

/-- Heat advection grouping step. -/
def gstep3 : String × List (Option String) :=
  ("advection_heat",
    [processes_heat_dict "horizontal_advection", processes_heat_dict "vertical_advection"])

/-- Heat diabatic-forcing grouping step (sums the category keys). -/
def gstep4 : String × List (Option String) :=
  ("diabatic_forcing_heat", [some "external_forcing_heat", some "diffusion_heat"])

/-- Heat total-tendency grouping step. -/
def gstep5 : String × List (Option String) :=
  ("total_tendency_heat", [some "advection_heat", some "diabatic_forcing_heat"])

/-- Salt external-forcing grouping step (`frazil_ice` and `geothermal`
map to `None` for salt). -/
def gstep6 : String × List (Option String) :=
  ("external_forcing_salt",
    [processes_salt_dict "boundary_forcing", processes_salt_dict "frazil_ice",
     processes_salt_dict "geothermal"])

/-- Salt diffusion grouping step. -/
def gstep7 : String × List (Option String) :=
  ("diffusion_salt",
    [processes_salt_dict "vertical_diffusion", processes_salt_dict "neutral_diffusion"])

/-- Salt advection grouping step. -/
def gstep8 : String × List (Option String) :=
  ("advection_salt",
    [processes_salt_dict "horizontal_advection", processes_salt_dict "vertical_advection"])

/-- Salt diabatic-forcing grouping step. -/
def gstep9 : String × List (Option String) :=
  ("diabatic_forcing_salt", [some "external_forcing_salt", some "diffusion_salt"])

/-- Salt total-tendency grouping step. -/
def gstep10 : String × List (Option String) :=
  ("total_tendency_salt", [some "advection_salt", some "diabatic_forcing_salt"])

/-- The `_sum_terms` calls issued by `_group_processes`, in source order:
for each component, external forcing, diffusion and advection from the
process taxonomy keys, then the diabatic forcing and total tendency from
the category keys just written. -/
def group_steps : List (String × List (Option String)) :=
  [gstep1, gstep2, gstep3, gstep4, gstep5, gstep6, gstep7, gstep8, gstep9, gstep10]

/-- The body of `_group_processes` on a non-`None` container. -/
def groupProcessesRun (m : DsMap) : DsMap := group_steps.foldl runStep m

/-- Helper method `_group_processes(hlamdot)`: `None` passes through. -/
def _group_processes (h? : Option DsMap) : Option DsMap :=
  h?.map groupProcessesRun

/-- Helper method `processes(check=True)`: the process names whose heat
and salt variables, when defined by the taxonomy, are present in the
dataset. -/
def processes_check (w : WMT) : List String :=
  processes_keys.filter (fun p =>
    (match processes_salt_dict p with
     | none => true
     | some c => (w.ds c).isSome)
    &&
    (match processes_heat_dict p with
     | none => true
     | some c => (w.ds c).isSome))

/-- The body of `_sum_components` on a non-`None` container: per-process
heat and salt fields are summed into a combined field, and with
`group_processes` also the category fields. -/
def sumComponentsRun (w : WMT) (m : DsMap) (group_processes : Bool) : DsMap :=
  let m1 := (processes_check w).foldl
    (fun acc proc => runStep acc (proc, [processes_heat_dict proc, processes_salt_dict proc])) m
  if group_processes then
    (["external_forcing", "diffusion", "advection", "diabatic_forcing",
      "total_tendency"]).foldl
      (fun acc proc =>
        runStep acc (proc, [some (proc ++ "_heat"), some (proc ++ "_salt")])) m1
  else m1

/-- Helper method `_sum_components(hlamdot, group_processes)`. -/
def _sum_components (w : WMT) (h? : Option DsMap) (group_processes : Bool) : Option DsMap :=
  h?.map (fun m => sumComponentsRun w m group_processes)

/-! ## Lambda-space transformation and the orchestration wrappers -/

/-- Modelled from the spec: `bin_define(lmin, lmax, delta)` is imported
from `xwmt.compute` but absent from the sources; per the spec and the
call site it builds uniformly spaced bin edges from `lmin` with spacing
`delta` up to `lmax` (numpy `arange`-like). -/
def bin_define (lmin lmax delta : ℚ) : List ℚ :=
  if 0 < delta then
    (List.range (Int.toNat ⌈(lmax - lmin) / delta⌉ + 1)).map
      (fun i => lmin + delta * (i : ℚ))
  else []

/-- Modelled from the spec: `bin_percentile` is imported from
`xwmt.compute` but absent from the sources; per the spec it derives
monotonically increasing edges spanning the bulk of the scalar field's
distribution.  The model probes a fixed leading window of the column and
spans its finite range with uniformly spaced edges. -/
def bin_percentile (lam : Column) : List ℚ :=
  let vals := (List.range 64).filterMap (fun k =>
    match lam k with
    | FloatV.fin q => some q
    | _ => none)
  match vals with
  | [] => []
  | v :: rest =>
    let lo := rest.foldl min v
    let hi := rest.foldl max v
    if lo = hi then [lo - 1, lo + 1]
    else bin_define lo hi ((hi - lo) / 100)

/-- Division of a binned field by `np.diff(bins)`. -/
def divideByBinWidths (f : Column) (bins : List ℚ) : Column :=
  fun k => FloatV.div (f k) (FloatV.fin (bins.getD (k + 1) 0 - bins.getD k 0))

/-- Method `transform_hlamdot(lambda_name, term, bins)`: remap the
layer-integrated tendencies onto the lambda bins via the grid's
conservative `transform` capability, one named output per tracer
component for a density lambda, a single named output otherwise.
The Python guard `if hlamdot is None: return` can never fire (the
`hlamdot` value is an array or a dict on every non-raising path of
`calc_hlamdot_and_lambda`), so the model proceeds directly. -/
def transform_hlamdot (gsw : Gsw) (w : WMT) (lambda_name term : String)
    (bins? : Option (List ℚ)) : Except String (WMT × List (Option String × Column)) :=
  match calc_hlamdot_and_lambda gsw w lambda_name term with
  | Except.error e => Except.error e
  | Except.ok (w1, hl, lam?) =>
    match lam? with
    | none => Except.error "TypeError: lam is NoneType"
    | some lam =>
      let bins := match bins? with
        | some b => b
        | none => bin_percentile lam
      let lam_i := w1.xgrid.interp lam
      if lambdas_density.contains lambda_name then
        match hl with
        | HlamdotVal.byTracer rho_heat rho_salt =>
          let outs := ([("heat", rho_heat), ("salt", rho_salt)] :
              List (String × Option Column)).filterMap
            (fun p =>
              match p.2 with
              | some hcol =>
                some ((process p.1 term).bind (fun pr => pr.2),
                  divideByBinWidths (w1.xgrid.transform hcol bins lam_i) bins)
              | none => none)
          Except.ok (w1, outs)
        | HlamdotVal.single _ => Except.error "TypeError: array hlamdot for density lambda"
      else
        match hl with
        | HlamdotVal.single hcol =>
          let tc := (process (if lambda_name = "salt" then "salt" else "heat") term).bind
            (fun pr => pr.2)
          Except.ok (w1, [(tc, divideByBinWidths (w1.xgrid.transform hcol bins lam_i) bins)])
        | HlamdotVal.byTracer _ _ =>
          Except.error "TypeError: dict hlamdot for scalar lambda"

/-- A result of `map_transformations`: a bare array when the container
collapses to a single variable, else the container. -/
inductive MapOut where
  | array : Column → MapOut
  | dataset : DsMap → MapOut

/-- The error raised by reading the undefined attribute `self.F`. -/
def attrErrF : String :=
  "AttributeError: WaterMassTransformations object has no attribute F"

/-- Method `map_transformations(lambda_name, term, sum_components,
group_processes, **kwargs)`.  With `term` omitted the source iterates the
nonempty process set and its first iteration reads `self.F`, which is not
defined anywhere on the class, so the call raises `AttributeError`. -/
def map_transformations (gsw : Gsw) (w : WMT) (lambda_name : String)
    (term : Option String) (bins? : Option (List ℚ))
    (sum_components group_processes : Bool) : Except String MapOut :=
  match term with
  | none => Except.error attrErrF
  | some t =>
    match transform_hlamdot gsw w lambda_name t bins? with
    | Except.error e => Except.error e
    | Except.ok (w1, named) =>
      let F : DsMap := named.foldl
        (fun acc p =>
          match p.1 with
          | some n => setKey acc n p.2
          | none => acc) []
      let F1 := if group_processes then groupProcessesRun F else F
      let F2 := if sum_components then sumComponentsRun w1 F1 group_processes else F1
      match F2 with
      | [single] => Except.ok (MapOut.array single.2)
      | m => Except.ok (MapOut.dataset m)

/-- The lambda-name resolution prefix of `isosurface_mean`: for a
non-density lambda, the tendency components whose lambda list starts
with the requested name. -/
def isoTendencyMatches (lambda_name : String) : List String :=
  (["heat", "salt", "density"]).filter
    (fun k => (lambdas_dict k).head? = some lambda_name)

/-- Method `isosurface_mean(lambda_name, [term,] val, ti, tf, dl, ...)`,
modelled for the valid argument counts (`term` given or omitted).  After
resolving the tendency code and building the bins the source evaluates
`self.F(lambda_name, term, **kwargs)`; `F` is not defined anywhere on the
class, so every call that reaches this line raises `AttributeError`.
An unresolvable lambda name warns and returns `None` before that line. -/
def isosurface_mean (_w : WMT) (lambda_name : String) (term : Option String)
    (val : ℚ) (dl : ℚ) : Except String (Option Column) :=
  match
    (if lambdas_density.contains lambda_name then Except.ok (some lambda_name)
     else
       match isoTendencyMatches lambda_name with
       | [t] => Except.ok (terms_dict t)
       | _ => Except.error "warn: Tendency is not defined") with
  | Except.error _ => Except.ok none
  | Except.ok _tendcode =>
    let _bins := bin_define (val - dl) (val + dl) dl
    let _ := term
    Except.error attrErrF

/-! ## Fixtures and auxiliary definitions used by the verification -/

/-! ## Concrete fixtures used by witnesses and counterexamples -/

/-- A trivial instantiation of the external `gsw` library. -/
def gswTrivial : Gsw :=
  { p_from_z := fun _ _ => colZero,
    SA_from_SP := fun _ _ _ _ => colZero,
    CT_from_t := fun _ _ _ => colZero,
    alpha := fun _ _ _ => colZero,
    beta := fun _ _ _ => colZero,
    sigma0 := fun _ _ => colZero,
    sigma1 := fun _ _ => colZero,
    sigma2 := fun _ _ => colZero,
    sigma3 := fun _ _ => colZero,
    sigma4 := fun _ _ => colZero }

/-- A grid without a `Z_metrics` attribute whose `get_metric` thickness
is identically zero. -/
def gridBare : XGrid :=
  { Z_metrics := none, metric := colZero, interp := id, transform := fun f _ _ => f }

/-- A finite interfacial flux whose convergence at layer 0 is nonzero. -/
def Jc2 : Column := fun k => if k = 0 then FloatV.fin 0 else FloatV.fin 1

/-- Thickness column for the C2 witness: zero at layer 0, 2 at layer 1. -/
def hcW : Column := fun k => if k = 0 then FloatV.fin 0 else FloatV.fin 2

/-- A grid carrying `Z_metrics` (the masked path). -/
def gridMasked : XGrid :=
  { Z_metrics := some hcW, metric := colZero, interp := id, transform := fun f _ _ => f }

/-- Interfacial flux for the C2 witness. -/
def Jw : Column := fun k =>
  if k = 0 then FloatV.fin 3 else if k = 1 then FloatV.fin 7 else FloatV.fin 0

/-- A record carrying a precomputed layer-integrated tendency. -/
def dLit : DataDict := { layer_integrated_tendency := some colZero }

/-- The taxonomy lookup that `datadict` performs through `process`. -/
def taxonomy (tr term : String) : Option String :=
  match process tr term with
  | some (_, tc) => tc
  | none => none

/-- A dataset carrying the heat boundary-forcing tendency and the
variables its record construction reads. -/
def dsBF : Dataset := fun n =>
  if n = "boundary_forcing_heat_tendency" then some colZero
  else if n = "thetao" then some colZero
  else if n = "wfo" then some colZero
  else if n = "lev_outer" then some colZero
  else if n = "tos" then some colZero
  else none

/-- A transformation object over `dsBF`. -/
def wBF : WMT := { ds := dsBF, xgrid := gridBare }

/-- The record that `datadict` builds on `wBF` for the heat
boundary-forcing term. -/
def rBF : DataDict :=
  { scalar := some { array := colZero },
    tendency := some { array := colZero, extensive := true, boundary := true },
    boundary := some { flux := colMulC (expand_surface_to_3d colZero colZero) 3992,
                       mass := true,
                       scalar_in_mass := expand_surface_to_3d colZero colZero } }

/-- A dataset carrying the Eulerian heat tendency and the temperature
field, on which the `theta` lambda pipeline is supposed to work. -/
def dsEul : Dataset := fun n =>
  if n = "opottemptend" then some colZero
  else if n = "thetao" then some colZero
  else none

/-- A transformation object over `dsEul`. -/
def wEul : WMT := { ds := dsEul, xgrid := gridBare }

/-- A transformation object over an empty dataset. -/
def wEmpty : WMT := { ds := fun _ => none, xgrid := gridBare }

/-- A dataset with the fields the TEOS-10 equation-of-state path reads. -/
def dsEOS : Dataset := fun n =>
  if n = "so" then some colZero
  else if n = "thetao" then some colZero
  else if n = "lev" then some colZero
  else if n = "lat" then some colZero
  else if n = "lon" then some colZero
  else none

/-- A transformation object over `dsEOS`. -/
def wEOS : WMT := { ds := dsEOS, xgrid := gridBare }

/-- A dataset for the non-TEOS-10 witness path. -/
def dsNT : Dataset := fun n =>
  if n = "so" then some colZero
  else if n = "thetao" then some colZero
  else none

/-- A transformation object with caller-supplied alpha and beta and
TEOS-10 disabled. -/
def wNT : WMT :=
  { ds := dsNT, xgrid := gridBare, alpha := some colZero, beta := some colZero,
    teos10 := false }

/-- The value `get_density` returns on `wNT` for the label `sigma9`. -/
def resNT : WMT × Column × Column × Option Column :=
  ({ wNT with sa := some colZero, ct := some colZero }, colZero, colZero, none)

/-- The successive states of one `_group_processes` pass. -/
def gps1 (m : DsMap) : DsMap := runStep m gstep1

def gps2 (m : DsMap) : DsMap := runStep (gps1 m) gstep2

def gps3 (m : DsMap) : DsMap := runStep (gps2 m) gstep3

def gps4 (m : DsMap) : DsMap := runStep (gps3 m) gstep4

def gps5 (m : DsMap) : DsMap := runStep (gps4 m) gstep5

def gps6 (m : DsMap) : DsMap := runStep (gps5 m) gstep6

def gps7 (m : DsMap) : DsMap := runStep (gps6 m) gstep7

def gps8 (m : DsMap) : DsMap := runStep (gps7 m) gstep8

def gps9 (m : DsMap) : DsMap := runStep (gps8 m) gstep9

def gps10 (m : DsMap) : DsMap := runStep (gps9 m) gstep10

/-! ## Basic facts about the float model -/

theorem FloatV.div_nan (x : FloatV) : FloatV.div x FloatV.nan = FloatV.nan := by
  cases x <;> rfl

theorem FloatV.fillna_nan : FloatV.fillna FloatV.nan = FloatV.fin 0 := rfl

theorem FloatV.fillna_fin (a : ℚ) : FloatV.fillna (FloatV.fin a) = FloatV.fin a := rfl

theorem FloatV.div_fin (x a : ℚ) (ha : a ≠ 0) :
    FloatV.div (FloatV.fin x) (FloatV.fin a) = FloatV.fin (x / a) := by
  simp [FloatV.div, ha]

theorem FloatV.mul_fin (x y : ℚ) :
    FloatV.mul (FloatV.fin x) (FloatV.fin y) = FloatV.fin (x * y) := rfl

/-! ## C2 — zero-thickness masking of the convergence operator -/

/-- Pointwise form of the convergence operator on the masked path. -/
theorem hlamdot_from_Jlam_metrics_apply (g : XGrid) (hc J : Column) (k : Nat)
    (hzm : g.Z_metrics = some hc) :
    hlamdot_from_Jlam g J "Z" k =
      FloatV.mul (FloatV.fillna (whereNeZero (hc k)))
        (FloatV.fillna (FloatV.div (FloatV.neg (FloatV.sub (J (k + 1)) (J k)))
          (whereNeZero (hc k)))) := by
  unfold hlamdot_from_Jlam gridDiff
  rw [hzm]

/-- Pointwise form of the convergence operator on the `get_metric` path. -/
theorem hlamdot_from_Jlam_nometrics_apply (g : XGrid) (J : Column) (k : Nat)
    (hzm : g.Z_metrics = none) :
    hlamdot_from_Jlam g J "Z" k =
      FloatV.mul (FloatV.fillna (g.metric k))
        (FloatV.fillna (FloatV.div (FloatV.neg (FloatV.sub (J (k + 1)) (J k)))
          (g.metric k))) := by
  unfold hlamdot_from_Jlam gridDiff
  rw [hzm]

/-- C2 (amended): on the masked path (a grid carrying `Z_metrics`), the
convergence operator yields exactly `0` at a layer of zero thickness and
the raw flux convergence `-(J (k+1) - J k)` at a layer of nonzero finite
thickness; on the unmasked `get_metric` path the nonzero-thickness value
is likewise the raw convergence (the zero-thickness value there can be
NaN, see the counterexample). -/
theorem hlamdot_from_Jlam_thickness (g : XGrid) (hc J : Column) (k : Nat) (ja jb : ℚ)
    (hJ1 : J k = FloatV.fin ja) (hJ2 : J (k + 1) = FloatV.fin jb) :
    (g.Z_metrics = some hc → hc k = FloatV.fin 0 →
        hlamdot_from_Jlam g J "Z" k = FloatV.fin 0)
    ∧ (∀ a : ℚ, a ≠ 0 → g.Z_metrics = some hc → hc k = FloatV.fin a →
        hlamdot_from_Jlam g J "Z" k = FloatV.fin (-(jb - ja)))
    ∧ (∀ a : ℚ, a ≠ 0 → g.Z_metrics = none → g.metric k = FloatV.fin a →
        hlamdot_from_Jlam g J "Z" k = FloatV.fin (-(jb - ja))) := by
  refine ⟨?_, ?_, ?_⟩
  · intro hzm hk
    rw [hlamdot_from_Jlam_metrics_apply g hc J k hzm, hk]
    rw [show whereNeZero (FloatV.fin 0) = FloatV.nan from rfl]
    rw [FloatV.div_nan, FloatV.fillna_nan, FloatV.mul_fin]
    norm_num
  · intro a ha hzm hk
    have hne : whereNeZero (FloatV.fin a) = FloatV.fin a := by
      simp [whereNeZero, ha]
    rw [hlamdot_from_Jlam_metrics_apply g hc J k hzm, hk, hne, hJ1, hJ2]
    rw [show FloatV.neg (FloatV.sub (FloatV.fin jb) (FloatV.fin ja)) =
      FloatV.fin (-(jb - ja)) from rfl]
    rw [FloatV.div_fin _ _ ha, FloatV.fillna_fin, FloatV.fillna_fin, FloatV.mul_fin]
    congr 1
    rw [mul_comm, div_mul_cancel₀ _ ha]
  · intro a ha hzm hk
    rw [hlamdot_from_Jlam_nometrics_apply g J k hzm, hk, hJ1, hJ2]
    rw [show FloatV.neg (FloatV.sub (FloatV.fin jb) (FloatV.fin ja)) =
      FloatV.fin (-(jb - ja)) from rfl]
    rw [FloatV.div_fin _ _ ha, FloatV.fillna_fin, FloatV.fillna_fin, FloatV.mul_fin]
    congr 1
    rw [mul_comm, div_mul_cancel₀ _ ha]

/-- C2 counterexample: on a grid without `Z_metrics` (the `get_metric`
fallback of the source), a zero-thickness layer with finite flux values
produces NaN, not 0: the claim is false as stated for arbitrary grids. -/
theorem hlamdot_from_Jlam_zero_thickness_nan :
    gridBare.Z_metrics = none ∧ gridBare.metric 0 = FloatV.fin 0 ∧
    Jc2 0 = FloatV.fin 0 ∧ Jc2 1 = FloatV.fin 1 ∧
    hlamdot_from_Jlam gridBare Jc2 "Z" 0 = FloatV.nan := by
  refine ⟨rfl, rfl, rfl, rfl, ?_⟩
  rw [hlamdot_from_Jlam_nometrics_apply gridBare Jc2 0 rfl]
  norm_num [gridBare, colZero, Jc2, FloatV.sub, FloatV.neg, FloatV.div,
    FloatV.fillna, FloatV.mul]

/-- C2 witness: the amended theorem applied at a concrete masked grid. -/
theorem hlamdot_from_Jlam_thickness_witness :
    Jw 0 = FloatV.fin 3 ∧ Jw 1 = FloatV.fin 7 ∧
    ((gridMasked.Z_metrics = some hcW → hcW 0 = FloatV.fin 0 →
        hlamdot_from_Jlam gridMasked Jw "Z" 0 = FloatV.fin 0)
      ∧ (∀ a : ℚ, a ≠ 0 → gridMasked.Z_metrics = some hcW → hcW 0 = FloatV.fin a →
        hlamdot_from_Jlam gridMasked Jw "Z" 0 = FloatV.fin (-(7 - 3)))
      ∧ (∀ a : ℚ, a ≠ 0 → gridMasked.Z_metrics = none → gridMasked.metric 0 = FloatV.fin a →
        hlamdot_from_Jlam gridMasked Jw "Z" 0 = FloatV.fin (-(7 - 3)))) :=
  ⟨rfl, rfl, hlamdot_from_Jlam_thickness gridMasked hcW Jw 0 3 7 rfl rfl⟩

/-! ## C3 — the wrapper `calc_hlamdot_tendency` -/

/-- C3: `calc_hlamdot_tendency` returns a precomputed layer-integrated
tendency verbatim, and otherwise applies `hlamdot_from_Jlam` along the Z
axis to the record's interfacial flux. -/
theorem calc_hlamdot_tendency_spec (g : XGrid) (d : DataDict) :
    (∀ t, d.layer_integrated_tendency = some t → calc_hlamdot_tendency g d = some t)
    ∧ (∀ J, d.layer_integrated_tendency = none → d.interfacial_flux = some J →
        calc_hlamdot_tendency g d = some (hlamdot_from_Jlam g J "Z")) := by
  constructor
  · intro t ht
    simp [calc_hlamdot_tendency, ht]
  · intro J h1 h2
    simp [calc_hlamdot_tendency, h1, h2]

/-- C3 witness: the branch specification at a concrete record. -/
theorem calc_hlamdot_tendency_spec_witness :
    (∀ t, dLit.layer_integrated_tendency = some t →
        calc_hlamdot_tendency gridBare dLit = some t)
    ∧ (∀ J, dLit.layer_integrated_tendency = none → dLit.interfacial_flux = some J →
        calc_hlamdot_tendency gridBare dLit = some (hlamdot_from_Jlam gridBare J "Z")) :=
  calc_hlamdot_tendency_spec gridBare dLit

/-! ## Inversion of `datadict` (shared by C4 and C6) -/

/-- When both inspected keys are absent, the wrapper falls through. -/
theorem calc_hlamdot_tendency_none (g : XGrid) (r : DataDict)
    (h1 : r.layer_integrated_tendency = none) (h2 : r.interfacial_flux = none) :
    calc_hlamdot_tendency g r = none := by
  simp [calc_hlamdot_tendency, h1, h2]

/-- Shape of every record that `datadict` returns. -/
theorem datadict_ok_some_shape (w : WMT) (tr term : String) (r : DataDict)
    (htr : tr = "heat" ∨ tr = "salt")
    (h : datadict w tr term = Except.ok (some r)) :
    r.scalar.isSome = true ∧ r.tendency.isSome = true ∧
    r.layer_integrated_tendency = none ∧ r.interfacial_flux = none ∧
    (term = "boundary_forcing" → ∃ b, r.boundary = some b ∧ b.mass = true) ∧
    (term ≠ "boundary_forcing" → r.boundary = none ∧
      ∃ te, r.tendency = some te ∧ te.extensive = true ∧ te.boundary = false) := by
  rcases htr with rfl | rfl
  · unfold datadict at h
    rw [show process "heat" term = some (some "thetao", processes_heat_dict term) from rfl] at h
    cases htc : processes_heat_dict term with
    | none => rw [htc] at h; simp at h
    | some c =>
      rw [htc] at h
      simp only [] at h
      cases hds : w.ds c with
      | none => rw [hds] at h; simp at h
      | some base =>
        rw [hds] at h
        simp only [] at h
        by_cases hbf : term = "boundary_forcing"
        · subst hbf
          have hc : c = "boundary_forcing_heat_tendency" := by
            simp [processes_heat_dict] at htc
            exact htc.symm
          subst hc
          rw [if_pos rfl, if_pos rfl] at h
          cases hwfo : w.ds "wfo" with
          | none => rw [hwfo] at h; simp at h
          | some wfo =>
            rw [hwfo] at h
            simp only [] at h
            cases hlev : w.ds "lev_outer" with
            | none => rw [hlev] at h; simp at h
            | some lev =>
              rw [hlev] at h
              simp only [] at h
              cases htos : w.ds "tos" with
              | none => rw [htos] at h; simp at h
              | some tos =>
                rw [htos] at h
                simp only [] at h
                unfold getVarO getVar at h
                simp only [] at h
                cases hth : w.ds "thetao" with
                | none => rw [hth] at h; simp at h
                | some scal =>
                  rw [hth] at h
                  simp only [] at h
                  injection h with h1
                  injection h1 with h2
                  subst h2
                  refine ⟨rfl, rfl, rfl, rfl, fun _ => ⟨_, rfl, rfl⟩, fun hne => absurd rfl hne⟩
        · rw [if_neg hbf] at h
          unfold getVarO getVar at h
          simp only [] at h
          cases hth : w.ds "thetao" with
          | none => rw [hth] at h; simp at h
          | some scal =>
            rw [hth] at h
            simp only [] at h
            injection h with h1
            injection h1 with h2
            subst h2
            exact ⟨rfl, rfl, rfl, rfl, fun he => absurd he hbf,
              fun _ => ⟨rfl, _, rfl, rfl, rfl⟩⟩
  · unfold datadict at h
    rw [show process "salt" term = some (some "so", processes_salt_dict term) from rfl] at h
    cases htc : processes_salt_dict term with
    | none => rw [htc] at h; simp at h
    | some c =>
      rw [htc] at h
      simp only [] at h
      cases hds : w.ds c with
      | none => rw [hds] at h; simp at h
      | some base =>
        rw [hds] at h
        simp only [] at h
        by_cases hbf : term = "boundary_forcing"
        · subst hbf
          have hc : c = "boundary_forcing_salt_tendency" := by
            simp [processes_salt_dict] at htc
            exact htc.symm
          subst hc
          rw [if_pos rfl, if_neg (by decide), if_pos rfl] at h
          cases hwfo : w.ds "wfo" with
          | none => rw [hwfo] at h; simp at h
          | some wfo =>
            rw [hwfo] at h
            simp only [] at h
            cases hlev : w.ds "lev_outer" with
            | none => rw [hlev] at h; simp at h
            | some lev =>
              rw [hlev] at h
              simp only [] at h
              cases hsos : w.ds "sos" with
              | none => rw [hsos] at h; simp at h
              | some sos =>
                rw [hsos] at h
                simp only [] at h
                unfold getVarO getVar at h
                simp only [] at h
                cases hso : w.ds "so" with
                | none => rw [hso] at h; simp at h
                | some scal =>
                  rw [hso] at h
                  simp only [] at h
                  injection h with h1
                  injection h1 with h2
                  subst h2
                  refine ⟨rfl, rfl, rfl, rfl, fun _ => ⟨_, rfl, rfl⟩, fun hne => absurd rfl hne⟩
        · rw [if_neg hbf] at h
          unfold getVarO getVar at h
          simp only [] at h
          cases hso : w.ds "so" with
          | none => rw [hso] at h; simp at h
          | some scal =>
            rw [hso] at h
            simp only [] at h
            injection h with h1
            injection h1 with h2
            subst h2
            exact ⟨rfl, rfl, rfl, rfl, fun he => absurd he hbf,
              fun _ => ⟨rfl, _, rfl, rfl, rfl⟩⟩

/-- `datadict` returns `None` exactly when the taxonomy has no variable
for the pair or the variable is absent from the dataset. -/
theorem datadict_ok_none_iff (w : WMT) (tr term : String)
    (htr : tr = "heat" ∨ tr = "salt") :
    datadict w tr term = Except.ok none ↔
      (taxonomy tr term = none ∨ ∃ c, taxonomy tr term = some c ∧ w.ds c = none) := by
  rcases htr with rfl | rfl
  · rw [show taxonomy "heat" term = processes_heat_dict term from rfl]
    unfold datadict
    rw [show process "heat" term = some (some "thetao", processes_heat_dict term) from rfl]
    cases htc : processes_heat_dict term with
    | none => simp
    | some c =>
      simp only []
      cases hds : w.ds c with
      | none =>
        simp only [reduceCtorEq, false_or, Option.some.injEq]
        constructor
        · intro _
          exact ⟨c, rfl, hds⟩
        · intro _
          trivial
      | some base =>
        simp only []
        constructor
        · intro hcontra
          by_cases hbf : term = "boundary_forcing"
          · subst hbf
            have hc : c = "boundary_forcing_heat_tendency" := by
              simp [processes_heat_dict] at htc
              exact htc.symm
            subst hc
            rw [if_pos rfl, if_pos rfl] at hcontra
            cases hwfo : w.ds "wfo" with
            | none => rw [hwfo] at hcontra; simp at hcontra
            | some wfo =>
              rw [hwfo] at hcontra
              simp only [] at hcontra
              cases hlev : w.ds "lev_outer" with
              | none => rw [hlev] at hcontra; simp at hcontra
              | some lev =>
                rw [hlev] at hcontra
                simp only [] at hcontra
                cases htos : w.ds "tos" with
                | none => rw [htos] at hcontra; simp at hcontra
                | some tos =>
                  rw [htos] at hcontra
                  simp only [] at hcontra
                  unfold getVarO getVar at hcontra
                  simp only [] at hcontra
                  cases hth : w.ds "thetao" with
                  | none => rw [hth] at hcontra; simp at hcontra
                  | some scal => rw [hth] at hcontra; simp at hcontra
          · rw [if_neg hbf] at hcontra
            unfold getVarO getVar at hcontra
            simp only [] at hcontra
            cases hth : w.ds "thetao" with
            | none => rw [hth] at hcontra; simp at hcontra
            | some scal => rw [hth] at hcontra; simp at hcontra
        · intro hr
          rcases hr with h1 | ⟨c2, hc2, hds2⟩
          · simp at h1
          · injection hc2 with hc2
            rw [← hc2, hds] at hds2
            simp at hds2
  · rw [show taxonomy "salt" term = processes_salt_dict term from rfl]
    unfold datadict
    rw [show process "salt" term = some (some "so", processes_salt_dict term) from rfl]
    cases htc : processes_salt_dict term with
    | none => simp
    | some c =>
      simp only []
      cases hds : w.ds c with
      | none =>
        simp only [reduceCtorEq, false_or, Option.some.injEq]
        constructor
        · intro _
          exact ⟨c, rfl, hds⟩
        · intro _
          trivial
      | some base =>
        simp only []
        constructor
        · intro hcontra
          by_cases hbf : term = "boundary_forcing"
          · subst hbf
            have hc : c = "boundary_forcing_salt_tendency" := by
              simp [processes_salt_dict] at htc
              exact htc.symm
            subst hc
            rw [if_pos rfl, if_neg (by decide), if_pos rfl] at hcontra
            cases hwfo : w.ds "wfo" with
            | none => rw [hwfo] at hcontra; simp at hcontra
            | some wfo =>
              rw [hwfo] at hcontra
              simp only [] at hcontra
              cases hlev : w.ds "lev_outer" with
              | none => rw [hlev] at hcontra; simp at hcontra
              | some lev =>
                rw [hlev] at hcontra
                simp only [] at hcontra
                cases hsos : w.ds "sos" with
                | none => rw [hsos] at hcontra; simp at hcontra
                | some sos =>
                  rw [hsos] at hcontra
                  simp only [] at hcontra
                  unfold getVarO getVar at hcontra
                  simp only [] at hcontra
                  cases hso : w.ds "so" with
                  | none => rw [hso] at hcontra; simp at hcontra
                  | some scal => rw [hso] at hcontra; simp at hcontra
          · rw [if_neg hbf] at hcontra
            unfold getVarO getVar at hcontra
            simp only [] at hcontra
            cases hso : w.ds "so" with
            | none => rw [hso] at hcontra; simp at hcontra
            | some scal => rw [hso] at hcontra; simp at hcontra
        · intro hr
          rcases hr with h1 | ⟨c2, hc2, hds2⟩
          · simp at h1
          · injection hc2 with hc2
            rw [← hc2, hds] at hds2
            simp at hds2

/-! ## C4 — nullity and the boundary/interior invariant of `datadict` -/

/-- C4: for a tracer of the taxonomy, `datadict` returns `None` exactly
when the taxonomy maps the pair to no variable or the variable is absent
from the dataset; every record for `boundary_forcing` carries the
mass-flux companion, and every record for any other process carries none
and is tagged as an interior, non-boundary extensive term. -/
theorem datadict_null_and_boundary_invariant (w : WMT) (tr term : String)
    (htr : tr = "heat" ∨ tr = "salt") :
    (datadict w tr term = Except.ok none ↔
      (taxonomy tr term = none ∨ ∃ c, taxonomy tr term = some c ∧ w.ds c = none))
    ∧ (∀ r, datadict w tr term = Except.ok (some r) →
        ((term = "boundary_forcing" → ∃ b, r.boundary = some b ∧ b.mass = true)
         ∧ (term ≠ "boundary_forcing" → r.boundary = none ∧
             ∃ te, r.tendency = some te ∧ te.extensive = true ∧ te.boundary = false))) := by
  refine ⟨datadict_ok_none_iff w tr term htr, ?_⟩
  intro r hr
  obtain ⟨-, -, -, -, h5, h6⟩ := datadict_ok_some_shape w tr term r htr hr
  exact ⟨h5, h6⟩

/-- C4 witness: the statement applied at the boundary-forcing process of
a concrete dataset. -/
theorem datadict_null_and_boundary_invariant_witness :
    ("heat" = "heat" ∨ "heat" = "salt") ∧
    ((datadict wBF "heat" "boundary_forcing" = Except.ok none ↔
      (taxonomy "heat" "boundary_forcing" = none ∨
        ∃ c, taxonomy "heat" "boundary_forcing" = some c ∧ wBF.ds c = none))
    ∧ (∀ r, datadict wBF "heat" "boundary_forcing" = Except.ok (some r) →
        (("boundary_forcing" = "boundary_forcing" →
            ∃ b, r.boundary = some b ∧ b.mass = true)
         ∧ ("boundary_forcing" ≠ "boundary_forcing" → r.boundary = none ∧
             ∃ te, r.tendency = some te ∧ te.extensive = true ∧ te.boundary = false)))) :=
  ⟨Or.inl rfl,
    datadict_null_and_boundary_invariant wBF "heat" "boundary_forcing" (Or.inl rfl)⟩

/-! ## C6 — `datadict` records never feed the wrapper's branches -/

/-- C6: every record returned by `datadict` has the `scalar`, `tendency`
and (for `boundary_forcing`) `boundary` keys, has neither of the keys
`layer_integrated_tendency` and `interfacial_flux` that
`calc_hlamdot_tendency` inspects, and hence the wrapper falls through
both branches and returns `None` on it. -/
theorem datadict_keys_and_wrapper_null (w : WMT) (tr term : String) (r : DataDict)
    (g : XGrid) (htr : tr = "heat" ∨ tr = "salt")
    (hr : datadict w tr term = Except.ok (some r)) :
    r.scalar.isSome = true ∧ r.tendency.isSome = true ∧
    (term = "boundary_forcing" → r.boundary.isSome = true) ∧
    r.layer_integrated_tendency = none ∧ r.interfacial_flux = none ∧
    calc_hlamdot_tendency g r = none := by
  obtain ⟨h1, h2, h3, h4, h5, _⟩ := datadict_ok_some_shape w tr term r htr hr
  refine ⟨h1, h2, ?_, h3, h4, calc_hlamdot_tendency_none g r h3 h4⟩
  intro hbf
  obtain ⟨b, hb, -⟩ := h5 hbf
  rw [hb]
  rfl

/-- C6 witness: the concrete record of `wBF`, on which the wrapper
returns `None`. -/
theorem datadict_keys_and_wrapper_null_witness :
    datadict wBF "heat" "boundary_forcing" = Except.ok (some rBF) ∧
    (rBF.scalar.isSome = true ∧ rBF.tendency.isSome = true ∧
      ("boundary_forcing" = "boundary_forcing" → rBF.boundary.isSome = true) ∧
      rBF.layer_integrated_tendency = none ∧ rBF.interfacial_flux = none ∧
      calc_hlamdot_tendency gridBare rBF = none) :=
  ⟨rfl, datadict_keys_and_wrapper_null wBF "heat" "boundary_forcing" rBF gridBare
    (Or.inl rfl) rfl⟩

/-! ## C1 and C5 — the broken tendency pipeline of `calc_hlamdot_and_lambda` -/

/-- C1: with the heat tendency present, the `theta` branch raises a
`TypeError` instead of computing `hlamdot`: `calc_hlamdot_tendency`
returns `None` on the record `datadict` builds (the record carries
neither key the wrapper inspects) and the source divides that `None` by
`rho_ref * cp`. -/
theorem calc_hlamdot_and_lambda_theta_raises :
    dsEul "opottemptend" = some colZero ∧ dsEul "thetao" = some colZero ∧
    calc_hlamdot_and_lambda gswTrivial wEul "theta" "Eulerian_tendency" =
      Except.error "TypeError: unsupported operand type NoneType" :=
  ⟨rfl, rfl, rfl⟩

/-- C5: when the process does not apply to the tracer (the salt taxonomy
maps `frazil_ice` to `None`), the `salt` branch leaves `hlamdot` unbound
and `return hlamdot, lam` raises `UnboundLocalError` instead of
returning `None`. -/
theorem calc_hlamdot_and_lambda_salt_unbound :
    processes_salt_dict "frazil_ice" = none ∧
    calc_hlamdot_and_lambda gswTrivial wEmpty "salt" "frazil_ice" =
      Except.error "UnboundLocalError: local variable hlamdot referenced before assignment" :=
  ⟨rfl, rfl⟩

/-! ## C9 — `get_density` on an unsupported reference-pressure label -/

theorem gd_step_p_ds (gsw : Gsw) (w w1 : WMT) (h : gd_step_p gsw w = Except.ok w1) :
    w1.ds = w.ds := by
  unfold gd_step_p at h
  split at h
  · cases hlev : w.ds "lev" with
    | none => rw [hlev] at h; simp at h
    | some lev =>
      rw [hlev] at h
      simp only [] at h
      cases hlat : w.ds "lat" with
      | none => rw [hlat] at h; simp at h
      | some lat =>
        rw [hlat] at h
        simp only [] at h
        injection h with h2
        rw [← h2]
  · injection h with h2
    rw [← h2]

theorem gd_step_sa_ds (gsw : Gsw) (w w1 : WMT) (h : gd_step_sa gsw w = Except.ok w1) :
    w1.ds = w.ds := by
  unfold gd_step_sa at h
  split at h
  · cases hso : w.ds "so" with
    | none => rw [hso] at h; simp at h
    | some so =>
      rw [hso] at h
      simp only [] at h
      cases hp : w.p with
      | none => rw [show attrGet w.p "p" = Except.error "AttributeError: p" from by rw [hp]; rfl] at h; simp at h
      | some p =>
        rw [show attrGet w.p "p" = Except.ok p from by rw [hp]; rfl] at h
        simp only [] at h
        cases hlon : w.ds "lon" with
        | none => rw [hlon] at h; simp at h
        | some lon =>
          rw [hlon] at h
          simp only [] at h
          cases hlat : w.ds "lat" with
          | none => rw [hlat] at h; simp at h
          | some lat =>
            rw [hlat] at h
            simp only [] at h
            injection h with h2
            rw [← h2]
  · injection h with h2
    rw [← h2]

theorem gd_step_ct_ds (gsw : Gsw) (w w1 : WMT) (h : gd_step_ct gsw w = Except.ok w1) :
    w1.ds = w.ds := by
  unfold gd_step_ct at h
  split at h
  · cases hsa : w.sa with
    | none => rw [show attrGet w.sa "sa" = Except.error "AttributeError: sa" from by rw [hsa]; rfl] at h; simp at h
    | some sa =>
      rw [show attrGet w.sa "sa" = Except.ok sa from by rw [hsa]; rfl] at h
      simp only [] at h
      cases hth : w.ds "thetao" with
      | none => rw [hth] at h; simp at h
      | some thetao =>
        rw [hth] at h
        simp only [] at h
        cases hp : w.p with
        | none => rw [show attrGet w.p "p" = Except.error "AttributeError: p" from by rw [hp]; rfl] at h; simp at h
        | some p =>
          rw [show attrGet w.p "p" = Except.ok p from by rw [hp]; rfl] at h
          simp only [] at h
          injection h with h2
          rw [← h2]
  · injection h with h2
    rw [← h2]

theorem gd_step_passthrough_ds (w w1 : WMT) (h : gd_step_passthrough w = Except.ok w1) :
    w1.ds = w.ds := by
  unfold gd_step_passthrough at h
  split at h
  · cases hso : w.ds "so" with
    | none => rw [hso] at h; simp at h
    | some so =>
      rw [hso] at h
      simp only [] at h
      cases hth : w.ds "thetao" with
      | none => rw [hth] at h; simp at h
      | some thetao =>
        rw [hth] at h
        simp only [] at h
        injection h with h2
        rw [← h2]
  · injection h with h2
    rw [← h2]

theorem gd_step_alpha_ds (gsw : Gsw) (w w1 : WMT) (h : gd_step_alpha gsw w = Except.ok w1) :
    w1.ds = w.ds := by
  unfold gd_step_alpha at h
  split at h
  · cases hda : w.ds "alpha" with
    | some a =>
      rw [hda] at h
      simp only [] at h
      injection h with h2
      rw [← h2]
    | none =>
      rw [hda] at h
      simp only [] at h
      cases hsa : w.sa with
      | none => rw [show attrGet w.sa "sa" = Except.error "AttributeError: sa" from by rw [hsa]; rfl] at h; simp at h
      | some sa =>
        rw [show attrGet w.sa "sa" = Except.ok sa from by rw [hsa]; rfl] at h
        simp only [] at h
        cases hct : w.ct with
        | none => rw [show attrGet w.ct "ct" = Except.error "AttributeError: ct" from by rw [hct]; rfl] at h; simp at h
        | some ct =>
          rw [show attrGet w.ct "ct" = Except.ok ct from by rw [hct]; rfl] at h
          simp only [] at h
          cases hp : w.p with
          | none => rw [show attrGet w.p "p" = Except.error "AttributeError: p" from by rw [hp]; rfl] at h; simp at h
          | some p =>
            rw [show attrGet w.p "p" = Except.ok p from by rw [hp]; rfl] at h
            simp only [] at h
            injection h with h2
            rw [← h2]
  · injection h with h2
    rw [← h2]

theorem gd_step_beta_ds (gsw : Gsw) (w w1 : WMT) (h : gd_step_beta gsw w = Except.ok w1) :
    w1.ds = w.ds := by
  unfold gd_step_beta at h
  split at h
  · cases hdb : w.ds "beta" with
    | some b =>
      rw [hdb] at h
      simp only [] at h
      injection h with h2
      rw [← h2]
    | none =>
      rw [hdb] at h
      simp only [] at h
      cases hsa : w.sa with
      | none => rw [show attrGet w.sa "sa" = Except.error "AttributeError: sa" from by rw [hsa]; rfl] at h; simp at h
      | some sa =>
        rw [show attrGet w.sa "sa" = Except.ok sa from by rw [hsa]; rfl] at h
        simp only [] at h
        cases hct : w.ct with
        | none => rw [show attrGet w.ct "ct" = Except.error "AttributeError: ct" from by rw [hct]; rfl] at h; simp at h
        | some ct =>
          rw [show attrGet w.ct "ct" = Except.ok ct from by rw [hct]; rfl] at h
          simp only [] at h
          cases hp : w.p with
          | none => rw [show attrGet w.p "p" = Except.error "AttributeError: p" from by rw [hp]; rfl] at h; simp at h
          | some p =>
            rw [show attrGet w.p "p" = Except.ok p from by rw [hp]; rfl] at h
            simp only [] at h
            injection h with h2
            rw [← h2]
  · injection h with h2
    rw [← h2]

/-- The preliminary blocks of `get_density` never touch the dataset. -/
theorem gd_prelims_ds (gsw : Gsw) (w w1 : WMT) (h : gd_prelims gsw w = Except.ok w1) :
    w1.ds = w.ds := by
  unfold gd_prelims at h
  cases h1 : gd_step_p gsw w with
  | error e => rw [h1] at h; simp at h
  | ok wa =>
    rw [h1] at h
    simp only [] at h
    cases h2 : gd_step_sa gsw wa with
    | error e => rw [h2] at h; simp at h
    | ok wb =>
      rw [h2] at h
      simp only [] at h
      cases h3 : gd_step_ct gsw wb with
      | error e => rw [h3] at h; simp at h
      | ok wc =>
        rw [h3] at h
        simp only [] at h
        cases h4 : gd_step_passthrough wc with
        | error e => rw [h4] at h; simp at h
        | ok wd =>
          rw [h4] at h
          simp only [] at h
          cases h5 : gd_step_alpha gsw wd with
          | error e => rw [h5] at h; simp at h
          | ok we =>
            rw [h5] at h
            simp only [] at h
            rw [gd_step_beta_ds gsw we w1 h, gd_step_alpha_ds gsw wd we h5,
              gd_step_passthrough_ds wc wd h4, gd_step_ct_ds gsw wb wc h3,
              gd_step_sa_ds gsw wa wb h2, gd_step_p_ds gsw w wa h1]

/-- C9 (amended): for a reference-pressure label that is not one of
`sigma0`..`sigma4` and not a dataset field, `get_density` does not raise
a configuration error for the label: whenever it returns, the returned
density is `None` (alpha and beta are still returned). -/
theorem get_density_unsupported_label (gsw : Gsw) (w : WMT) (s : String)
    (res : WMT × Column × Column × Option Column)
    (hs : s ∉ lambdas_density) (hds : w.ds s = none)
    (h : get_density gsw w (some s) = Except.ok res) :
    res.2.2.2 = none := by
  unfold get_density at h
  cases hp : gd_prelims gsw w with
  | error e => rw [hp] at h; simp at h
  | ok w1 =>
    rw [hp] at h
    simp only [] at h
    cases ha : w1.alpha with
    | none => rw [show attrGet w1.alpha "alpha" = Except.error "AttributeError: alpha" from by rw [ha]; rfl] at h; simp at h
    | some alpha =>
      rw [show attrGet w1.alpha "alpha" = Except.ok alpha from by rw [ha]; rfl] at h
      simp only [] at h
      cases hb : w1.beta with
      | none => rw [show attrGet w1.beta "beta" = Except.error "AttributeError: beta" from by rw [hb]; rfl] at h; simp at h
      | some beta =>
        rw [show attrGet w1.beta "beta" = Except.ok beta from by rw [hb]; rfl] at h
        simp only [] at h
        unfold gd_density at h
        rw [show w1.ds = w.ds from gd_prelims_ds gsw w w1 hp] at h
        simp only [] at h
        simp only [hds, Option.isSome_none, Bool.false_eq_true, if_false] at h
        split at h
        · exact absurd (by simp_all [lambdas_density, lambdas_dict]) hs
        · exact absurd (by simp_all [lambdas_density, lambdas_dict]) hs
        · exact absurd (by simp_all [lambdas_density, lambdas_dict]) hs
        · exact absurd (by simp_all [lambdas_density, lambdas_dict]) hs
        · exact absurd (by simp_all [lambdas_density, lambdas_dict]) hs
        · injection h with h2
          rw [← h2]

/-- C9 counterexample: `sigma5` is not a supported label and not a
dataset field, yet `get_density` returns successfully (no configuration
error is raised) with a `None` density. -/
theorem get_density_sigma5_no_error :
    dsEOS "sigma5" = none ∧
    (get_density gswTrivial wEOS (some "sigma5")).map (fun r => r.2.2.2) =
      Except.ok none :=
  ⟨rfl, rfl⟩

/-- C9 witness: the amended statement applied at the concrete label
`sigma9` on `wNT`. -/
theorem get_density_unsupported_label_witness :
    ("sigma9" ∉ lambdas_density) ∧ wNT.ds "sigma9" = none ∧
    get_density gswTrivial wNT (some "sigma9") = Except.ok resNT ∧
    resNT.2.2.2 = none :=
  ⟨by decide, rfl, rfl,
    get_density_unsupported_label gswTrivial wNT "sigma9" resNT (by decide) rfl rfl⟩

/-! ## C7 — the undefined attribute `F` -/

/-- C7 (amended): `map_transformations` with the term omitted always
raises the `AttributeError` for the undefined `F`, and so does
`isosurface_mean` (with a valid argument count) for every lambda name
that passes the tendency resolution; an unresolvable lambda name instead
warns and returns `None` before reaching `self.F` (see the
counterexample). -/
theorem map_transformations_and_isosurface_mean_F (gsw : Gsw) (w : WMT)
    (lambda_name : String) (term? : Option String) (bins? : Option (List ℚ))
    (sum_components group_processes : Bool) (val dl : ℚ) :
    map_transformations gsw w lambda_name none bins? sum_components group_processes =
      Except.error attrErrF
    ∧ (lambda_name ∈ ["theta", "salt", "sigma0", "sigma1", "sigma2", "sigma3", "sigma4"] →
        isosurface_mean w lambda_name term? val dl = Except.error attrErrF) := by
  constructor
  · rfl
  · intro hmem
    fin_cases hmem <;> rfl

/-- C7 counterexample: an invocation of `isosurface_mean` with a valid
argument count whose lambda name does not resolve returns `None` (after
a warning) and raises no undefined-attribute error, refuting the
universally quantified claim. -/
theorem isosurface_mean_unresolved_lambda_returns_none :
    isosurface_mean wEmpty "foo" (some "boundary_forcing") 3 (1 / 10) =
      Except.ok none :=
  rfl

/-- C7 witness: the amended statement at a concrete resolvable lambda. -/
theorem map_transformations_and_isosurface_mean_F_witness :
    ("salt" ∈ ["theta", "salt", "sigma0", "sigma1", "sigma2", "sigma3", "sigma4"]) ∧
    map_transformations gswTrivial wEmpty "salt" none none true false =
      Except.error attrErrF ∧
    isosurface_mean wEmpty "salt" (some "vertical_diffusion") 35 1 =
      Except.error attrErrF :=
  ⟨by decide,
    (map_transformations_and_isosurface_mean_F gswTrivial wEmpty "salt"
      (some "vertical_diffusion") none true false 35 1).1,
    (map_transformations_and_isosurface_mean_F gswTrivial wEmpty "salt"
      (some "vertical_diffusion") none true false 35 1).2 (by decide)⟩

/-! ## C10 — `isosurface_mean` never reaches the time weighting -/

/-- C10: on a dataset where the transformation inputs exist, a valid
`isosurface_mean` call raises the `AttributeError` for the undefined
`F` before any time interval is read, so the time-weighted mean of the
claim is never computed. -/
theorem isosurface_mean_raises_before_weighting :
    isosurface_mean wEul "theta" none (1 / 2) (1 / 10) = Except.error attrErrF :=
  rfl

/-! ## C8 — idempotence of `_group_processes` -/

theorem lookupDs_setKey_self (m : DsMap) (k : String) (v : Column) :
    lookupDs (setKey m k v) k = some v := by
  induction m with
  | nil => simp [setKey, lookupDs]
  | cons p rest ih =>
    by_cases hp : p.1 = k
    · simp [setKey, hp, lookupDs]
    · simp [setKey, hp, lookupDs, ih]

theorem lookupDs_setKey_ne (m : DsMap) (k k' : String) (v : Column) (h : ¬ k' = k) :
    lookupDs (setKey m k v) k' = lookupDs m k' := by
  induction m with
  | nil => simp [setKey, lookupDs, Ne.symm h]
  | cons p rest ih =>
    obtain ⟨p1, p2⟩ := p
    by_cases hp : p1 = k
    · subst hp
      simp [setKey, lookupDs, Ne.symm h]
    · simp [setKey, hp, lookupDs, ih]

theorem setKey_self (m : DsMap) (k : String) (v : Column)
    (h : lookupDs m k = some v) : setKey m k v = m := by
  induction m with
  | nil => simp [lookupDs] at h
  | cons p rest ih =>
    by_cases hp : p.1 = k
    · unfold lookupDs at h
      rw [if_pos hp] at h
      injection h with h2
      unfold setKey
      rw [if_pos hp]
      obtain ⟨p1, p2⟩ := p
      simp only at hp h2
      rw [hp, h2]
    · unfold lookupDs at h
      rw [if_neg hp] at h
      unfold setKey
      rw [if_neg hp, ih h]

theorem lookupDs_runStep_ne (m : DsMap) (st : String × List (Option String))
    (k : String) (h : ¬ k = st.1) :
    lookupDs (runStep m st) k = lookupDs m k := by
  simp only [runStep, _sum_terms]
  split
  · rfl
  · exact lookupDs_setKey_ne m st.1 k _ h

theorem runStep_fix (m : DsMap) (st : String × List (Option String))
    (h : (stepDas m st.2).isEmpty = false →
      lookupDs m st.1 = some (sumDas (stepDas m st.2))) :
    runStep m st = m := by
  by_cases hb : (stepDas m st.2).isEmpty = true
  · simp only [runStep, _sum_terms]
    rw [if_pos hb]
  · simp only [runStep, _sum_terms]
    rw [if_neg hb]
    exact setKey_self _ _ _ (h (by simpa using hb))

theorem stepDas_congr (m m' : DsMap) (ts : List (Option String))
    (h : ∀ c : String, some c ∈ ts → lookupDs m c = lookupDs m' c) :
    stepDas m ts = stepDas m' ts := by
  unfold stepDas
  induction ts with
  | nil => rfl
  | cons t rest ih =>
    simp only [List.filterMap_cons]
    rw [ih (fun c hc => h c (List.mem_cons_of_mem t hc))]
    cases t with
    | none => rfl
    | some c => rw [show (some c).bind (lookupDs m) = lookupDs m c from rfl,
        show (some c).bind (lookupDs m') = lookupDs m' c from rfl,
        h c (List.mem_cons_self _ _)]

theorem gp_eq_gps10 (m : DsMap) : groupProcessesRun m = gps10 m := by
  show List.foldl runStep m group_steps = gps10 m
  simp only [group_steps, List.foldl, gps10, gps9, gps8, gps7, gps6, gps5, gps4,
    gps3, gps2, gps1]

theorem gfix1 (m : DsMap) : runStep (gps10 m) gstep1 = gps10 m := by
  apply runStep_fix
  have hsrc : stepDas (gps10 m) gstep1.2 = stepDas m gstep1.2 := by
    apply stepDas_congr
    intro c hc
    simp +decide [gstep1, processes_heat_dict] at hc
    rcases hc with rfl | rfl | rfl <;>
      simp +decide only [gps10, gps9, gps8, gps7, gps6, gps5, gps4, gps3, gps2, gps1,
        lookupDs_runStep_ne]
  rw [hsrc]
  intro hne
  have hpeel : lookupDs (gps10 m) gstep1.1 = lookupDs (gps1 m) gstep1.1 := by
    simp +decide only [gps10, gps9, gps8, gps7, gps6, gps5, gps4, gps3, gps2,
      lookupDs_runStep_ne]
  rw [hpeel]
  simp only [gps1, runStep, _sum_terms]
  rw [if_neg (by simp [hne])]
  exact lookupDs_setKey_self _ _ _

theorem gfix2 (m : DsMap) : runStep (gps10 m) gstep2 = gps10 m := by
  apply runStep_fix
  have hsrc : stepDas (gps10 m) gstep2.2 = stepDas (gps1 m) gstep2.2 := by
    apply stepDas_congr
    intro c hc
    simp +decide [gstep2, processes_heat_dict] at hc
    rcases hc with rfl | rfl <;>
      simp +decide only [gps10, gps9, gps8, gps7, gps6, gps5, gps4, gps3, gps2,
        lookupDs_runStep_ne]
  rw [hsrc]
  intro hne
  have hpeel : lookupDs (gps10 m) gstep2.1 = lookupDs (gps2 m) gstep2.1 := by
    simp +decide only [gps10, gps9, gps8, gps7, gps6, gps5, gps4, gps3,
      lookupDs_runStep_ne]
  rw [hpeel]
  simp only [gps2, runStep, _sum_terms]
  rw [if_neg (by simp [hne])]
  exact lookupDs_setKey_self _ _ _

theorem gfix3 (m : DsMap) : runStep (gps10 m) gstep3 = gps10 m := by
  apply runStep_fix
  have hsrc : stepDas (gps10 m) gstep3.2 = stepDas (gps2 m) gstep3.2 := by
    apply stepDas_congr
    intro c hc
    simp +decide [gstep3, processes_heat_dict] at hc
    rcases hc with rfl | rfl <;>
      simp +decide only [gps10, gps9, gps8, gps7, gps6, gps5, gps4, gps3,
        lookupDs_runStep_ne]
  rw [hsrc]
  intro hne
  have hpeel : lookupDs (gps10 m) gstep3.1 = lookupDs (gps3 m) gstep3.1 := by
    simp +decide only [gps10, gps9, gps8, gps7, gps6, gps5, gps4,
      lookupDs_runStep_ne]
  rw [hpeel]
  simp only [gps3, runStep, _sum_terms]
  rw [if_neg (by simp [hne])]
  exact lookupDs_setKey_self _ _ _

theorem gfix4 (m : DsMap) : runStep (gps10 m) gstep4 = gps10 m := by
  apply runStep_fix
  have hsrc : stepDas (gps10 m) gstep4.2 = stepDas (gps3 m) gstep4.2 := by
    apply stepDas_congr
    intro c hc
    simp [gstep4] at hc
    rcases hc with rfl | rfl <;>
      simp +decide only [gps10, gps9, gps8, gps7, gps6, gps5, gps4,
        lookupDs_runStep_ne]
  rw [hsrc]
  intro hne
  have hpeel : lookupDs (gps10 m) gstep4.1 = lookupDs (gps4 m) gstep4.1 := by
    simp +decide only [gps10, gps9, gps8, gps7, gps6, gps5,
      lookupDs_runStep_ne]
  rw [hpeel]
  simp only [gps4, runStep, _sum_terms]
  rw [if_neg (by simp [hne])]
  exact lookupDs_setKey_self _ _ _

theorem gfix5 (m : DsMap) : runStep (gps10 m) gstep5 = gps10 m := by
  apply runStep_fix
  have hsrc : stepDas (gps10 m) gstep5.2 = stepDas (gps4 m) gstep5.2 := by
    apply stepDas_congr
    intro c hc
    simp [gstep5] at hc
    rcases hc with rfl | rfl <;>
      simp +decide only [gps10, gps9, gps8, gps7, gps6, gps5,
        lookupDs_runStep_ne]
  rw [hsrc]
  intro hne
  have hpeel : lookupDs (gps10 m) gstep5.1 = lookupDs (gps5 m) gstep5.1 := by
    simp +decide only [gps10, gps9, gps8, gps7, gps6,
      lookupDs_runStep_ne]
  rw [hpeel]
  simp only [gps5, runStep, _sum_terms]
  rw [if_neg (by simp [hne])]
  exact lookupDs_setKey_self _ _ _

theorem gfix6 (m : DsMap) : runStep (gps10 m) gstep6 = gps10 m := by
  apply runStep_fix
  have hsrc : stepDas (gps10 m) gstep6.2 = stepDas (gps5 m) gstep6.2 := by
    apply stepDas_congr
    intro c hc
    simp +decide [gstep6, processes_salt_dict] at hc
    subst hc
    simp +decide only [gps10, gps9, gps8, gps7, gps6,
      lookupDs_runStep_ne]
  rw [hsrc]
  intro hne
  have hpeel : lookupDs (gps10 m) gstep6.1 = lookupDs (gps6 m) gstep6.1 := by
    simp +decide only [gps10, gps9, gps8, gps7,
      lookupDs_runStep_ne]
  rw [hpeel]
  simp only [gps6, runStep, _sum_terms]
  rw [if_neg (by simp [hne])]
  exact lookupDs_setKey_self _ _ _

theorem gfix7 (m : DsMap) : runStep (gps10 m) gstep7 = gps10 m := by
  apply runStep_fix
  have hsrc : stepDas (gps10 m) gstep7.2 = stepDas (gps6 m) gstep7.2 := by
    apply stepDas_congr
    intro c hc
    simp +decide [gstep7, processes_salt_dict] at hc
    rcases hc with rfl | rfl <;>
      simp +decide only [gps10, gps9, gps8, gps7,
        lookupDs_runStep_ne]
  rw [hsrc]
  intro hne
  have hpeel : lookupDs (gps10 m) gstep7.1 = lookupDs (gps7 m) gstep7.1 := by
    simp +decide only [gps10, gps9, gps8,
      lookupDs_runStep_ne]
  rw [hpeel]
  simp only [gps7, runStep, _sum_terms]
  rw [if_neg (by simp [hne])]
  exact lookupDs_setKey_self _ _ _

theorem gfix8 (m : DsMap) : runStep (gps10 m) gstep8 = gps10 m := by
  apply runStep_fix
  have hsrc : stepDas (gps10 m) gstep8.2 = stepDas (gps7 m) gstep8.2 := by
    apply stepDas_congr
    intro c hc
    simp +decide [gstep8, processes_salt_dict] at hc
    rcases hc with rfl | rfl <;>
      simp +decide only [gps10, gps9, gps8,
        lookupDs_runStep_ne]
  rw [hsrc]
  intro hne
  have hpeel : lookupDs (gps10 m) gstep8.1 = lookupDs (gps8 m) gstep8.1 := by
    simp +decide only [gps10, gps9,
      lookupDs_runStep_ne]
  rw [hpeel]
  simp only [gps8, runStep, _sum_terms]
  rw [if_neg (by simp [hne])]
  exact lookupDs_setKey_self _ _ _

theorem gfix9 (m : DsMap) : runStep (gps10 m) gstep9 = gps10 m := by
  apply runStep_fix
  have hsrc : stepDas (gps10 m) gstep9.2 = stepDas (gps8 m) gstep9.2 := by
    apply stepDas_congr
    intro c hc
    simp [gstep9] at hc
    rcases hc with rfl | rfl <;>
      simp +decide only [gps10, gps9,
        lookupDs_runStep_ne]
  rw [hsrc]
  intro hne
  have hpeel : lookupDs (gps10 m) gstep9.1 = lookupDs (gps9 m) gstep9.1 := by
    simp +decide only [gps10, lookupDs_runStep_ne]
  rw [hpeel]
  simp only [gps9, runStep, _sum_terms]
  rw [if_neg (by simp [hne])]
  exact lookupDs_setKey_self _ _ _

theorem gfix10 (m : DsMap) : runStep (gps10 m) gstep10 = gps10 m := by
  apply runStep_fix
  have hsrc : stepDas (gps10 m) gstep10.2 = stepDas (gps9 m) gstep10.2 := by
    apply stepDas_congr
    intro c hc
    simp [gstep10] at hc
    rcases hc with rfl | rfl <;>
      simp +decide only [gps10, lookupDs_runStep_ne]
  rw [hsrc]
  intro hne
  simp only [gps10, runStep, _sum_terms]
  rw [if_neg (by simp [hne])]
  exact lookupDs_setKey_self _ _ _

/-- One `_group_processes` pass is a fixpoint of a second pass. -/
theorem groupProcessesRun_idem (m : DsMap) :
    groupProcessesRun (groupProcessesRun m) = groupProcessesRun m := by
  rw [gp_eq_gps10 m]
  show List.foldl runStep (gps10 m) group_steps = gps10 m
  simp only [group_steps, List.foldl]
  rw [gfix1 m, gfix2 m, gfix3 m, gfix4 m, gfix5 m, gfix6 m, gfix7 m, gfix8 m,
    gfix9 m, gfix10 m]

/-- C8: `_group_processes` applied twice yields the same container as
applied once — the category fields are recomputed from the same source
keys, never double-counted. -/
theorem _group_processes_idem (h? : Option DsMap) :
    _group_processes (_group_processes h?) = _group_processes h? := by
  cases h? with
  | none => rfl
  | some m =>
    show some (groupProcessesRun (groupProcessesRun m)) = some (groupProcessesRun m)
    rw [groupProcessesRun_idem m]

end Xwmt
